import Mathlib

/-!
Verification of the exception (throw/catch) substrate in `src/gdb/exceptions.c`.

The development shallowly embeds the file's data model and operations:

* machine state that the C code keeps in process-wide globals (`uiout`,
  `cleanup_chain`, `quit_flag`, `immediate_quit`, the target/execution flags)
  becomes the explicit record `Gdb.Globals`, threaded through every operation;
* the catcher stack (`current_catcher` with its `prev` back links) becomes a
  `List Gdb.Catcher`, head = stack top;
* each catcher frame's `volatile struct exception *exception` points at a
  caller-owned slot; because the stack top's slot is the unique one a throw
  writes, the slot's current contents are stored in the frame (`exception`
  field) and handed back to the catch primitive when the frame is popped;
* the `SIGJMP_BUF`/`SIGSETJMP`/`SIGLONGJMP` non-local control transfer is
  embedded structurally: a throw produces a `ThrowStep.longjmp` outcome that
  the drive-loop model consumes exactly where `SIGSETJMP` would resume;
* `internal_error` (a fatal, process-aborting diagnostic) is the `fatal`
  outcome; dereferencing the NULL `current_catcher` pointer (no check exists
  in the C code) is the distinct `nullDeref` outcome;
* out-of-scope collaborators (cleanup registry, breakpoint, display,
  annotation/printing) are represented by their observable effect on the
  modelled globals plus an ordered `Effect` trace.
-/

namespace Gdb

/-- Modelled from the spec: error kinds are an open enumeration with at least
a generic kind; `NO_ERROR` (numeric 0, the `memset`/`exception_none` value)
and `GENERIC_ERROR` are the two kinds `src/gdb/exceptions.c` mentions.  The
enum itself lives in `exceptions.h`, which is not under `src/`. -/
inductive Errors where
  | NO_ERROR
  | GENERIC_ERROR
deriving DecidableEq, Repr

/-- `struct exception` from `exceptions.h` as used by `src/gdb/exceptions.c`:
a reason code, an error kind, and an optional message (`char *message`,
NULL = absent). -/
structure Exception where
  reason : Int
  error : Errors
  message : Option String
deriving DecidableEq, Repr

/-- Modelled from the spec: the reason code for quit/interrupt.  `defs.h`
(not under `src/`) defines `enum return_reason { RETURN_QUIT = -2,
RETURN_ERROR = -1 }`; the spec requires reasons to be negative for abnormal
returns and to distinguish quit from error. -/
def RETURN_QUIT : Int := -2

/-- Modelled from the spec: the reason code for errors (see `RETURN_QUIT`). -/
def RETURN_ERROR : Int := -1

/-- Modelled from the spec: `RETURN_MASK (reason)` from `defs.h` (not under
`src/`), the bit a reason occupies inside a catcher's accepted bitmask:
`1 << (int) (-reason)`. -/
def RETURN_MASK (reason : Int) : Nat := 1 <<< (-reason).toNat

/-- Modelled from the spec: `RETURN_MASK_QUIT` from `defs.h`. -/
def RETURN_MASK_QUIT : Nat := RETURN_MASK RETURN_QUIT

/-- Modelled from the spec: `RETURN_MASK_ERROR` from `defs.h`. -/
def RETURN_MASK_ERROR : Nat := RETURN_MASK RETURN_ERROR

/-- Modelled from the spec: `RETURN_MASK_ALL` from `defs.h`. -/
def RETURN_MASK_ALL : Nat := RETURN_MASK_QUIT ||| RETURN_MASK_ERROR

/-- `const struct exception exception_none = { 0, NO_ERROR, NULL }`
(line 35). -/
def exception_none : Exception :=
  { reason := 0, error := .NO_ERROR, message := none }

/-- `enum catcher_state` (lines 50-58). -/
inductive CatcherState where
  | CATCHER_CREATED
  | CATCHER_RUNNING
  | CATCHER_RUNNING_1
  | CATCHER_ABORTING
deriving DecidableEq, Repr

/-- `enum catcher_action` (lines 61-65). -/
inductive CatcherAction where
  | CATCH_ITER
  | CATCH_ITER_1
  | CATCH_THROWING
deriving DecidableEq, Repr

/-- `struct catcher` (lines 67-80).  The jump buffer `buf` is embedded
structurally (see the module comment) and the `prev` back link is the list
tail, so neither is a field here; the `exception` field holds the current
contents of the caller-owned slot the C frame points at. -/
structure Catcher where
  state : CatcherState
  exception : Exception
  mask : Nat
  saved_uiout : Nat
  saved_cleanup_chain : Nat
deriving DecidableEq, Repr

/-- The process-wide mutable state `src/gdb/exceptions.c` reads or writes:
the global `uiout` builder (an opaque reference, as a numeric id), the
cleanup-registry token (`cleanup_chain`, as a numeric token, 0 = empty),
`quit_flag`, `immediate_quit`, and the three target/execution-mode flags
consulted by `throw_exception`. -/
structure Globals where
  uiout : Nat
  cleanup_chain : Nat
  quit_flag : Bool
  immediate_quit : Bool
  target_can_async : Bool
  target_executing : Bool
  sync_execution : Bool
deriving DecidableEq, Repr

/-- Modelled from the spec: the cleanup registry collaborator's
`save_cleanups () -> token` (the registry lives outside this core).  Saving
returns the current chain as the token and detaches the chain, so that —
as the comment at lines 104-105 says — an error/quit during the protected
function cannot run cleanups established prior to the catch. -/
def save_cleanups (g : Globals) : Nat × Globals :=
  (g.cleanup_chain, { g with cleanup_chain := 0 })

/-- Modelled from the spec: the cleanup registry collaborator's
`restore_cleanups (token)`: reinstates the saved chain. -/
def restore_cleanups (tok : Nat) (g : Globals) : Globals :=
  { g with cleanup_chain := tok }

/-- `catcher_init` (lines 85-114): reset the caller's exception slot to
no-exception, record the mask, swap the global `uiout` for the supplied one
(saving the old), save the cleanup chain, and push the new frame in state
`CATCHER_CREATED`.  Returns the updated globals and stack. -/
def catcher_init (func_uiout : Nat) (mask : Nat) (g : Globals)
    (stack : List Catcher) : Globals × List Catcher :=
  let saved_uiout := g.uiout
  let g := { g with uiout := func_uiout }
  let saved := save_cleanups g
  let new_catcher : Catcher :=
    { state := .CATCHER_CREATED
      exception := exception_none
      mask := mask
      saved_uiout := saved_uiout
      saved_cleanup_chain := saved.1 }
  (saved.2, new_catcher :: stack)

/-- `catcher_pop` (lines 116-130), applied to the frame being unlinked:
restore the cleanup chain, then the `uiout` builder, to the values saved in
the frame. -/
def catcher_pop (old_catcher : Catcher) (g : Globals) : Globals :=
  { restore_cleanups old_catcher.saved_cleanup_chain g with
      uiout := old_catcher.saved_uiout }

/-- Outcome of one `catcher_state_machine` call.
`ret cont g stack`: the C function returned (non-zero iff `cont`), with the
globals and catcher stack as given.  `relay e g stack`: the
`CATCHER_ABORTING`/`CATCH_ITER` branch popped the frame and re-invoked
`throw_exception` with the frame's exception `e` (lines 199-202); the
recursion is carried out by the caller's model (`throw_deliver`).
`fatal`: `internal_error` was called (process aborts with diagnostics).
`nullDeref`: `current_catcher` was NULL and the C code dereferenced it —
an unchecked crash, distinct from `internal_error`. -/
inductive SMOutcome where
  | ret (cont : Bool) (g : Globals) (stack : List Catcher)
  | relay (e : Exception) (g : Globals) (stack : List Catcher)
  | fatal
  | nullDeref
deriving DecidableEq, Repr

/-- `catcher_state_machine` (lines 135-210): the per-frame transition table,
switching on the stack top's state, then on the action. -/
def catcher_state_machine (action : CatcherAction) (g : Globals) :
    List Catcher → SMOutcome
  | [] => .nullDeref
  | c :: rest =>
    match c.state with
    | .CATCHER_CREATED =>
      match action with
      | .CATCH_ITER =>
        -- Allow the code to run the catcher.
        .ret true g ({ c with state := .CATCHER_RUNNING } :: rest)
      | .CATCH_ITER_1 => .fatal
      | .CATCH_THROWING => .fatal
    | .CATCHER_RUNNING =>
      match action with
      | .CATCH_ITER =>
        -- No error/quit has occured.  Just clean up.
        .ret false (catcher_pop c g) rest
      | .CATCH_ITER_1 =>
        .ret true g ({ c with state := .CATCHER_RUNNING_1 } :: rest)
      | .CATCH_THROWING =>
        .ret true g ({ c with state := .CATCHER_ABORTING } :: rest)
    | .CATCHER_RUNNING_1 =>
      match action with
      | .CATCH_ITER =>
        -- A "break" from the inner while loop.
        .ret false (catcher_pop c g) rest
      | .CATCH_ITER_1 =>
        .ret false g ({ c with state := .CATCHER_RUNNING } :: rest)
      | .CATCH_THROWING =>
        .ret true g ({ c with state := .CATCHER_ABORTING } :: rest)
    | .CATCHER_ABORTING =>
      match action with
      | .CATCH_ITER =>
        if c.mask &&& RETURN_MASK c.exception.reason ≠ 0 then
          -- Exit normally if this catcher can handle this exception.
          .ret false (catcher_pop c g) rest
        else
          -- Relay the event to the next containing catch_errors().
          .relay c.exception (catcher_pop c g) rest
      | .CATCH_ITER_1 => .fatal
      | .CATCH_THROWING => .fatal

/-- The ordered observable side effects of `throw_exception` (lines
217-229) on this core's collaborators: the two flag clears, the breakpoint
collaborator call (`bpstat_clear_actions`), the display collaborator call
(`disable_current_display`), and the three cleanup-scope runs. -/
inductive Effect where
  | clear_quit_flag
  | clear_immediate_quit
  | bpstat_clear_actions
  | disable_current_display
  | do_cleanups_all
  | do_exec_cleanups_all
  | do_exec_error_cleanups_all
deriving DecidableEq, Repr

/-- The ordered effect trace of `throw_exception`'s global-state
normalization (lines 217-229): the exec-cleanup scopes run only under the
conditions the C code tests. -/
def throw_effects_trace (g : Globals) : List Effect :=
  [.clear_quit_flag, .clear_immediate_quit, .bpstat_clear_actions,
   .disable_current_display, .do_cleanups_all]
  ++ (if g.target_can_async && !g.target_executing then
        [Effect.do_exec_cleanups_all] else [])
  ++ (if g.sync_execution then [Effect.do_exec_error_cleanups_all] else [])

/-- The effect of `throw_exception`'s normalization on the modelled globals:
both flags cleared, and `do_cleanups (ALL_CLEANUPS)` leaves the
cleanup chain empty.  The exec-cleanup scopes live outside the modelled
globals (they are collaborator state) and appear only in the trace. -/
def throw_effects (g : Globals) : Globals :=
  { g with quit_flag := false, immediate_quit := false, cleanup_chain := 0 }

/-- How `throw_exception` (lines 214-237) ends.  `longjmp resume stack`:
`SIGLONGJMP (current_catcher->buf, exception.reason)` was reached with
`resume = exception.reason`, after the stack-top slot was overwritten
(`stack` is the stack at that moment); control re-enters the drive loop of
the catch primitive that owns the top frame.  `fatal`: `internal_error`.
`nullDeref`: `current_catcher` was NULL and was dereferenced.  There is no
"returns normally" constructor: the C function is `NORETURN`. -/
inductive ThrowStep where
  | longjmp (resume : Int) (stack : List Catcher)
  | fatal
  | nullDeref
deriving DecidableEq, Repr

/-- `throw_exception` (lines 214-237): normalize global state (see
`throw_effects_trace`), drive the state machine with `CATCH_THROWING`,
store the exception into the stack top's slot
(`*current_catcher->exception = exception`), and jump.  Result: the effect
trace, the globals after normalization, and the terminating step. -/
def throw_exception (exception : Exception) (g : Globals)
    (stack : List Catcher) : List Effect × Globals × ThrowStep :=
  (throw_effects_trace g, throw_effects g,
    match catcher_state_machine .CATCH_THROWING (throw_effects g) stack with
    | .ret _ _ (top :: rest) =>
      .longjmp exception.reason ({ top with exception := exception } :: rest)
    | .ret _ _ [] => .fatal
    | .nullDeref => .nullDeref
    | .relay _ _ _ => .fatal
    | .fatal => .fatal)

/-- The exception `throw_reason` (lines 241-260) builds: `memset` to zero
(reason 0, `NO_ERROR`, no message), then the reason is stored and, for
`RETURN_ERROR`, the error kind becomes `GENERIC_ERROR`; any other reason is
an `internal_error` ("bad switch"), modelled as `none`. -/
def throw_reason_exception (reason : Int) : Option Exception :=
  if reason = RETURN_QUIT then
    some { reason := reason, error := .NO_ERROR, message := none }
  else if reason = RETURN_ERROR then
    some { reason := reason, error := .GENERIC_ERROR, message := none }
  else
    none

/-- `throw_reason` (lines 241-260): build the exception and delegate to
`throw_exception`; a bad reason aborts first (`internal_error`, before any
global effect). -/
def throw_reason (reason : Int) (g : Globals) (stack : List Catcher) :
    List Effect × Globals × ThrowStep :=
  match throw_reason_exception reason with
  | some e => throw_exception e g stack
  | none => ([], g, .fatal)

/-- `throw_it` (lines 355-375): format the message into the process-wide
`last_message` buffer and wrap it into a fresh exception.  The buffer swap
is ownership bookkeeping outside the value model; the formatted text is the
`message` argument. -/
def throw_it_exception (reason : Int) (error : Errors) (message : String) :
    Exception :=
  { reason := reason, error := error, message := some message }

/-- The exception `throw_verror` (lines 377-381) builds:
`throw_it (RETURN_ERROR, error, fmt, ap)`. -/
def throw_verror_exception (error : Errors) (message : String) : Exception :=
  throw_it_exception RETURN_ERROR error message

/-- The exception `throw_vfatal` (lines 383-387) builds:
`throw_it (RETURN_QUIT, NO_ERROR, fmt, ap)`. -/
def throw_vfatal_exception (message : String) : Exception :=
  throw_it_exception RETURN_QUIT .NO_ERROR message

/-- The exception `throw_error` (lines 389-396) builds:
`throw_it (RETURN_ERROR, error, fmt, args)`. -/
def throw_error_exception (error : Errors) (message : String) : Exception :=
  throw_it_exception RETURN_ERROR error message

/-- `throw_verror` as a full throw: build and delegate to
`throw_exception`. -/
def throw_verror (error : Errors) (message : String) (g : Globals)
    (stack : List Catcher) : List Effect × Globals × ThrowStep :=
  throw_exception (throw_verror_exception error message) g stack

/-- `throw_vfatal` as a full throw: build and delegate to
`throw_exception`. -/
def throw_vfatal (message : String) (g : Globals) (stack : List Catcher) :
    List Effect × Globals × ThrowStep :=
  throw_exception (throw_vfatal_exception message) g stack

/-- `throw_error` as a full throw: build and delegate to
`throw_exception`. -/
def throw_error (error : Errors) (message : String) (g : Globals)
    (stack : List Catcher) : List Effect × Globals × ThrowStep :=
  throw_exception (throw_error_exception error message) g stack

/-- One invocation of a protected operation, as observed by the catch
primitive that runs it: it either returns a value normally or invokes
`throw_exception` with some exception.  (A `void` operation is modelled as
returning 0.)  Nested catch/throw pairs inside the operation are balanced
and therefore invisible at this frame. -/
inductive OpResult where
  | ret (v : Int)
  | throw (e : Exception)
deriving DecidableEq, Repr

/-- Result of the shared drive loop
`for (SIGSETJMP (*catch); catcher_state_machine (CATCH_ITER);) ...`
of the catch primitives (lines 448-451, 463-465, 496-497, 510-511).
`done val slot g stack`: the loop exited normally (the frame was popped);
`val` is the protected operation's stored value (0 if it threw), `slot`
the caller-owned exception slot's contents.  `relayed e g stack`: the frame
did not claim a thrown exception; it was popped and `throw_exception` was
re-invoked with `e` against the remaining `stack` — control never comes
back to this catch primitive.  `fatal`: `internal_error`. -/
inductive DriveOutcome where
  | done (val : Int) (slot : Exception) (g : Globals) (stack : List Catcher)
  | relayed (e : Exception) (g : Globals) (stack : List Catcher)
  | fatal
deriving DecidableEq, Repr

/-- The shared skeleton of the four catch primitives: `catcher_init`, then
the `SIGSETJMP`-guarded drive loop.  First `CATCH_ITER` query (state
`CATCHER_CREATED`): run the operation.  If it returns, the next
`CATCH_ITER` (state `CATCHER_RUNNING`) pops and stops.  If it throws,
`throw_exception` normalizes the globals, flips the frame to
`CATCHER_ABORTING`, writes the slot, and longjmps back into the loop; the
next `CATCH_ITER` either claims (pop and stop) or relays. -/
def catcher_run (func_uiout : Nat) (mask : Nat)
    (op : Globals → OpResult × Globals) (g : Globals)
    (stack : List Catcher) : DriveOutcome :=
  let init := catcher_init func_uiout mask g stack
  match catcher_state_machine .CATCH_ITER init.1 init.2 with
  | .ret _ g2 stack2 =>
    match op g2 with
    | (.ret v, g3) =>
      match catcher_state_machine .CATCH_ITER g3 stack2 with
      | .ret _ g4 stack4 => .done v exception_none g4 stack4
      | .relay _ _ _ => .fatal
      | .fatal => .fatal
      | .nullDeref => .fatal
    | (.throw e, g3) =>
      let thrown := throw_exception e g3 stack2
      match thrown.2.2 with
      | .longjmp _ stack4 =>
        match catcher_state_machine .CATCH_ITER thrown.2.1 stack4 with
        | .ret _ g5 stack5 => .done 0 e g5 stack5
        | .relay e2 g5 stack5 => .relayed e2 g5 stack5
        | .fatal => .fatal
        | .nullDeref => .fatal
      | .fatal => .fatal
      | .nullDeref => .fatal
  | .relay _ _ _ => .fatal
  | .fatal => .fatal
  | .nullDeref => .fatal

/-- How a catch primitive's invocation ends, seen by its caller.
`ret v g stack`: the primitive returned `v`.  `relayed e g stack`: an
unclaimed exception was relayed past the primitive (it never returns;
`g`/`stack` are the state at the instant its frame had been popped, before
the relayed `throw_exception` machinery runs against the enclosing
frames).  `assertFail g stack`: a `gdb_assert` failed (`internal_error`;
the primitive never returns).  `fatal`: `internal_error` elsewhere. -/
inductive CatchResult (α : Type) where
  | ret (v : α) (g : Globals) (stack : List Catcher)
  | relayed (e : Exception) (g : Globals) (stack : List Catcher)
  | assertFail (g : Globals) (stack : List Catcher)
  | fatal
deriving DecidableEq, Repr

/-- The catcher stack at the instant a catch primitive's involvement ends
(`none` when the process aborted through `internal_error` elsewhere). -/
def CatchResult.stackAfter {α : Type} : CatchResult α → Option (List Catcher)
  | .ret _ _ s => some s
  | .relayed _ _ s => some s
  | .assertFail _ s => some s
  | .fatal => none

/-- The globals at the instant a catch primitive's involvement ends. -/
def CatchResult.globalsAfter {α : Type} : CatchResult α → Option Globals
  | .ret _ g _ => some g
  | .relayed _ g _ => some g
  | .assertFail g _ => some g
  | .fatal => none

/-- The value a catch primitive returned, when it returned at all. -/
def CatchResult.retValue {α : Type} : CatchResult α → Option α
  | .ret v _ _ => some v
  | .relayed _ _ _ => none
  | .assertFail _ _ => none
  | .fatal => none

/-- `catch_exception` (lines 439-452): run the operation under a catcher
and hand back whatever exception ended in the slot (`exception_none` on
normal completion).  The operation's value is discarded (`void func`). -/
def catch_exception (func_uiout : Nat) (op : Globals → OpResult × Globals)
    (mask : Nat) (g : Globals) (stack : List Catcher) :
    CatchResult Exception :=
  match catcher_run func_uiout mask op g stack with
  | .done _ slot g2 s2 => .ret slot g2 s2
  | .relayed e g2 s2 => .relayed e g2 s2
  | .fatal => .fatal

/-- `catch_exceptions_with_msg` (lines 454-484): drive the operation, print
any pending exception to `gdb_stderr` (collaborator effect), assert
`val >= 0` then `exception.reason <= 0` (`gdb_assert`; failure is
`assertFail`), and on an exception return its raw reason after storing an
independent copy of the message — or NULL when it has none — into
`*gdberrmsg` when the caller supplied that slot; otherwise return `val`.
The returned pair is (C return value, the value written through
`gdberrmsg`: `none` when nothing was written, `some m` when `m` was). -/
def catch_exceptions_with_msg (func_uiout : Nat)
    (op : Globals → OpResult × Globals) (gdberrmsg : Bool) (mask : Nat)
    (g : Globals) (stack : List Catcher) :
    CatchResult (Int × Option (Option String)) :=
  match catcher_run func_uiout mask op g stack with
  | .done val slot g2 s2 =>
    if 0 ≤ val then
      if slot.reason ≤ 0 then
        if slot.reason < 0 then
          .ret (slot.reason, if gdberrmsg then some slot.message else none)
            g2 s2
        else
          .ret (val, none) g2 s2
      else .assertFail g2 s2
    else .assertFail g2 s2
  | .relayed e g2 s2 => .relayed e g2 s2
  | .fatal => .fatal

/-- `catch_exceptions` (lines 430-437): delegates to
`catch_exceptions_with_msg` with a NULL `gdberrmsg`. -/
def catch_exceptions (func_uiout : Nat) (op : Globals → OpResult × Globals)
    (mask : Nat) (g : Globals) (stack : List Catcher) :
    CatchResult (Int × Option (Option String)) :=
  catch_exceptions_with_msg func_uiout op false mask g stack

/-- `catch_errors` (lines 486-502): the catcher is installed with the
*current* global `uiout` (no swap-in of a different sink); after the drive
loop, print any pending exception with the `errstring` prefix and return 0
if any exception occurred, else the operation's own value. -/
def catch_errors (op : Globals → OpResult × Globals)
    (_errstring : Option String) (mask : Nat) (g : Globals)
    (stack : List Catcher) : CatchResult Int :=
  match catcher_run g.uiout mask op g stack with
  | .done val slot g2 s2 =>
    if slot.reason ≠ 0 then .ret 0 g2 s2 else .ret val g2 s2
  | .relayed e g2 s2 => .relayed e g2 s2
  | .fatal => .fatal

/-- `catch_command_errors` (lines 504-516): run a command-style operation
(its value is ignored), print any pending exception, and return 0 when an
exception with negative reason is pending, else 1. -/
def catch_command_errors (op : Globals → OpResult × Globals) (mask : Nat)
    (g : Globals) (stack : List Catcher) : CatchResult Int :=
  match catcher_run g.uiout mask op g stack with
  | .done _ slot g2 s2 =>
    if slot.reason < 0 then .ret 0 g2 s2 else .ret 1 g2 s2
  | .relayed e g2 s2 => .relayed e g2 s2
  | .fatal => .fatal

/-- How a throw is finally resolved against the whole catcher stack.
`caught e g stack`: the innermost catcher whose mask accepts the reason
popped itself with the exception in its slot; its catch primitive's drive
loop exits with `stack` (the enclosing frames) as the remaining stack.
`fatal` / `nullDeref`: as in `ThrowStep`. -/
inductive DeliverOutcome where
  | caught (e : Exception) (g : Globals) (stack : List Catcher)
  | fatal
  | nullDeref
deriving DecidableEq, Repr

/-- The complete resolution of `throw_exception`: the throw normalizes the
globals and longjmps into the top frame's drive loop (state machine action
`CATCH_THROWING`, slot write); that loop queries the state machine with
`CATCH_ITER` in `CATCHER_ABORTING` state, which either stops (exception
claimed) or pops and re-invokes `throw_exception` with the same exception
(lines 184-206), moving one frame down the stack.  Each relay hop re-runs
the global normalization, exactly as each re-entered `throw_exception`
does. -/
def throw_deliver (e : Exception) (g : Globals) :
    List Catcher → DeliverOutcome
  | [] => .nullDeref
  | c :: rest =>
    let g := throw_effects g
    match catcher_state_machine .CATCH_THROWING g (c :: rest) with
    | .ret _ g2 _ =>
      -- The longjmp lands in the drive loop after the slot write.
      match catcher_state_machine .CATCH_ITER g2
          ({ c with state := .CATCHER_ABORTING, exception := e } :: rest) with
      | .ret _ g3 s3 => .caught e g3 s3
      | .relay e2 g3 _ => throw_deliver e2 g3 rest
      | .fatal => .fatal
      | .nullDeref => .fatal
    | .relay _ _ _ => .fatal
    | .fatal => .fatal
    | .nullDeref => .fatal

end Gdb

namespace Gdb

/-- Claim C1: `catcher_state_machine` implements exactly the spec's
transition table.  Each of the 12 (state, action) pairs is stated as a
universally quantified equation on an arbitrary frame (fields `e m su tok`)
over an arbitrary remaining stack and globals: CREATED/ITER runs the catcher
(continue = true, state RUNNING); RUNNING: ITER pops (continue = false),
ITER_1 goes to RUNNING_1 (true), THROWING goes to ABORTING (true);
RUNNING_1: ITER pops (false), ITER_1 goes back to RUNNING (false), THROWING
goes to ABORTING (true); ABORTING/ITER reads the frame's exception slot and
either pops with continue = false (mask contains the reason) or pops and
re-invokes Throw with the same exception (`SMOutcome.relay`); the other four
pairs call `internal_error` (`SMOutcome.fatal`). -/
theorem c1_catcher_state_machine_table :
    (∀ (e : Exception) (m su tok : Nat) (g : Globals) (rest : List Catcher),
      catcher_state_machine .CATCH_ITER g
          (⟨.CATCHER_CREATED, e, m, su, tok⟩ :: rest)
        = .ret true g (⟨.CATCHER_RUNNING, e, m, su, tok⟩ :: rest))
    ∧ (∀ (e : Exception) (m su tok : Nat) (g : Globals) (rest : List Catcher),
      catcher_state_machine .CATCH_ITER_1 g
          (⟨.CATCHER_CREATED, e, m, su, tok⟩ :: rest) = .fatal)
    ∧ (∀ (e : Exception) (m su tok : Nat) (g : Globals) (rest : List Catcher),
      catcher_state_machine .CATCH_THROWING g
          (⟨.CATCHER_CREATED, e, m, su, tok⟩ :: rest) = .fatal)
    ∧ (∀ (e : Exception) (m su tok : Nat) (g : Globals) (rest : List Catcher),
      catcher_state_machine .CATCH_ITER g
          (⟨.CATCHER_RUNNING, e, m, su, tok⟩ :: rest)
        = .ret false (catcher_pop ⟨.CATCHER_RUNNING, e, m, su, tok⟩ g) rest)
    ∧ (∀ (e : Exception) (m su tok : Nat) (g : Globals) (rest : List Catcher),
      catcher_state_machine .CATCH_ITER_1 g
          (⟨.CATCHER_RUNNING, e, m, su, tok⟩ :: rest)
        = .ret true g (⟨.CATCHER_RUNNING_1, e, m, su, tok⟩ :: rest))
    ∧ (∀ (e : Exception) (m su tok : Nat) (g : Globals) (rest : List Catcher),
      catcher_state_machine .CATCH_THROWING g
          (⟨.CATCHER_RUNNING, e, m, su, tok⟩ :: rest)
        = .ret true g (⟨.CATCHER_ABORTING, e, m, su, tok⟩ :: rest))
    ∧ (∀ (e : Exception) (m su tok : Nat) (g : Globals) (rest : List Catcher),
      catcher_state_machine .CATCH_ITER g
          (⟨.CATCHER_RUNNING_1, e, m, su, tok⟩ :: rest)
        = .ret false (catcher_pop ⟨.CATCHER_RUNNING_1, e, m, su, tok⟩ g) rest)
    ∧ (∀ (e : Exception) (m su tok : Nat) (g : Globals) (rest : List Catcher),
      catcher_state_machine .CATCH_ITER_1 g
          (⟨.CATCHER_RUNNING_1, e, m, su, tok⟩ :: rest)
        = .ret false g (⟨.CATCHER_RUNNING, e, m, su, tok⟩ :: rest))
    ∧ (∀ (e : Exception) (m su tok : Nat) (g : Globals) (rest : List Catcher),
      catcher_state_machine .CATCH_THROWING g
          (⟨.CATCHER_RUNNING_1, e, m, su, tok⟩ :: rest)
        = .ret true g (⟨.CATCHER_ABORTING, e, m, su, tok⟩ :: rest))
    ∧ (∀ (e : Exception) (m su tok : Nat) (g : Globals) (rest : List Catcher),
      catcher_state_machine .CATCH_ITER g
          (⟨.CATCHER_ABORTING, e, m, su, tok⟩ :: rest)
        = if m &&& RETURN_MASK e.reason ≠ 0 then
            .ret false (catcher_pop ⟨.CATCHER_ABORTING, e, m, su, tok⟩ g) rest
          else
            .relay e (catcher_pop ⟨.CATCHER_ABORTING, e, m, su, tok⟩ g) rest)
    ∧ (∀ (e : Exception) (m su tok : Nat) (g : Globals) (rest : List Catcher),
      catcher_state_machine .CATCH_ITER_1 g
          (⟨.CATCHER_ABORTING, e, m, su, tok⟩ :: rest) = .fatal)
    ∧ (∀ (e : Exception) (m su tok : Nat) (g : Globals) (rest : List Catcher),
      catcher_state_machine .CATCH_THROWING g
          (⟨.CATCHER_ABORTING, e, m, su, tok⟩ :: rest) = .fatal) := by
  refine ⟨?_, ?_, ?_, ?_, ?_, ?_, ?_, ?_, ?_, ?_, ?_, ?_⟩ <;>
    intros <;> rfl

/-- A concrete `Globals` value used by concrete evaluations. -/
def g0 : Globals :=
  { uiout := 0, cleanup_chain := 0, quit_flag := false,
    immediate_quit := false, target_can_async := false,
    target_executing := false, sync_execution := false }

/-- One hop of `throw_deliver` at a frame that is executing protected code:
the frame moves to `CATCHER_ABORTING`, its slot receives the exception, and
the `CATCH_ITER` query either claims (mask contains the reason) or pops and
relays to the remaining stack. -/
theorem throw_deliver_step (e : Exception) (g : Globals) (c : Catcher)
    (rest : List Catcher)
    (h : c.state = .CATCHER_RUNNING ∨ c.state = .CATCHER_RUNNING_1) :
    throw_deliver e g (c :: rest)
      = if c.mask &&& RETURN_MASK e.reason ≠ 0 then
          .caught e
            (catcher_pop { c with state := .CATCHER_ABORTING, exception := e }
              (throw_effects g)) rest
        else
          throw_deliver e
            (catcher_pop { c with state := .CATCHER_ABORTING, exception := e }
              (throw_effects g)) rest := by
  obtain ⟨st, ex, m, su, tok⟩ := c
  rcases h with h | h <;> subst h <;>
    · simp only [throw_deliver, catcher_state_machine]
      by_cases hm : m &&& RETURN_MASK e.reason ≠ 0
      · simp only [if_pos hm]
      · simp only [if_neg hm]

/-- Claim C3: `throw_exception` first emits, in order, the quit-flag clear,
the immediate-quit clear, the breakpoint-action discard, the display
disable, and the global cleanup run, followed by the async-exec cleanup
scope when the target is async-capable and not executing, and the sync-exec
cleanup scope when synchronous execution is active; the resulting globals
have both flags cleared and the (global-scope) cleanup chain run down; then
it drives the state machine with `CATCH_THROWING`, stores the exception in
the stack-top frame's slot, and longjmps with the exception's reason as the
resume value.  The result type `ThrowStep` has no normal-return
constructor, so the operation never returns to its caller. -/
theorem c3_throw_exception_order (e : Exception) (g : Globals) (c : Catcher)
    (rest : List Catcher)
    (h : c.state = .CATCHER_RUNNING ∨ c.state = .CATCHER_RUNNING_1) :
    throw_exception e g (c :: rest)
      = ([Effect.clear_quit_flag, .clear_immediate_quit,
          .bpstat_clear_actions, .disable_current_display, .do_cleanups_all]
         ++ (if g.target_can_async && !g.target_executing then
               [Effect.do_exec_cleanups_all] else [])
         ++ (if g.sync_execution then
               [Effect.do_exec_error_cleanups_all] else []),
         { g with quit_flag := false, immediate_quit := false,
                  cleanup_chain := 0 },
         .longjmp e.reason
           ({ c with state := .CATCHER_ABORTING, exception := e } :: rest)) := by
  obtain ⟨st, ex, m, su, tok⟩ := c
  rcases h with h | h <;> subst h <;> rfl

/-- Witness for C3 at a concrete throw. -/
theorem c3_witness :
    throw_exception ⟨RETURN_ERROR, .GENERIC_ERROR, some "msg"⟩
        ⟨1, 2, true, true, false, false, false⟩
        [⟨.CATCHER_RUNNING, exception_none, RETURN_MASK_ALL, 7, 8⟩]
      = ([Effect.clear_quit_flag, .clear_immediate_quit,
          .bpstat_clear_actions, .disable_current_display, .do_cleanups_all],
         ⟨1, 0, false, false, false, false, false⟩,
         .longjmp RETURN_ERROR
           [⟨.CATCHER_ABORTING, ⟨RETURN_ERROR, .GENERIC_ERROR, some "msg"⟩,
             RETURN_MASK_ALL, 7, 8⟩]) :=
  c3_throw_exception_order _ _ _ _ (Or.inl rfl)

/-- Claim C2: for every nesting (`pre` = the catchers strictly inside the
claiming one, innermost first, all executing protected code and none
accepting the reason; `c` = the innermost catcher whose mask accepts it;
`post` = everything enclosing `c`), delivering a throw walks the stack from
the top, pops each non-claiming frame while relaying the same exception,
and is claimed by `c`: the resolution is `caught` with exactly the original
exception and with the enclosing stack `post` returned untouched, so every
Catch enclosing the claiming one observes no state change. -/
theorem c2_innermost_catcher_claims (e : Exception) (g : Globals)
    (pre : List Catcher) (c : Catcher) (post : List Catcher)
    (hpre : ∀ f ∈ pre,
      (f.state = .CATCHER_RUNNING ∨ f.state = .CATCHER_RUNNING_1)
        ∧ f.mask &&& RETURN_MASK e.reason = 0)
    (hc : c.state = .CATCHER_RUNNING ∨ c.state = .CATCHER_RUNNING_1)
    (hm : c.mask &&& RETURN_MASK e.reason ≠ 0) :
    ∃ g2, throw_deliver e g (pre ++ c :: post) = .caught e g2 post := by
  induction pre generalizing g with
  | nil =>
    rw [List.nil_append, throw_deliver_step e g c post hc, if_pos hm]
    exact ⟨_, rfl⟩
  | cons f pre ih =>
    obtain ⟨hfs, hfm⟩ := hpre f (List.mem_cons_self f pre)
    rw [List.cons_append, throw_deliver_step e g f (pre ++ c :: post) hfs,
      if_neg (by simp [hfm])]
    exact ih _ (fun x hx => hpre x (List.mem_cons_of_mem f hx))

/-- Witness for C2: a quit thrown under an error-only catcher nested inside
a catch-all catcher, with one enclosing frame left untouched. -/
theorem c2_witness :
    ∃ g2, throw_deliver ⟨RETURN_QUIT, .NO_ERROR, none⟩ g0
        ([⟨.CATCHER_RUNNING, exception_none, RETURN_MASK_ERROR, 1, 2⟩]
          ++ ⟨.CATCHER_RUNNING_1, exception_none, RETURN_MASK_ALL, 3, 4⟩
          :: [⟨.CATCHER_CREATED, exception_none, 0, 5, 6⟩])
      = .caught ⟨RETURN_QUIT, .NO_ERROR, none⟩ g2
          [⟨.CATCHER_CREATED, exception_none, 0, 5, 6⟩] :=
  c2_innermost_catcher_claims _ _ _ _ _
    (by intro f hf; simp only [List.mem_singleton] at hf; subst hf
        exact ⟨Or.inl rfl, by decide⟩)
    (Or.inr rfl) (by decide)

/-- Counterexample for C8: invoking `throw_exception` with the catcher
stack empty dereferences the NULL `current_catcher` pointer (outcome
`nullDeref`), which is not the `internal_error` fatal-with-diagnostics
outcome the claim asserts. -/
theorem c8_counterexample :
    (throw_exception ⟨RETURN_ERROR, .GENERIC_ERROR, some "err"⟩ g0 []).2.2
        = ThrowStep.nullDeref
    ∧ ThrowStep.nullDeref ≠ ThrowStep.fatal :=
  ⟨rfl, by decide⟩

/-- Claim C8 (amended): invoking any Throw primitive while the catcher
stack is empty reaches `catcher_state_machine` with `current_catcher`
NULL and crashes by dereferencing it — an unchecked null-pointer
dereference, with no `internal_error` diagnostic emitted. -/
theorem c8_empty_stack_crashes :
    (∀ (e : Exception) (g : Globals),
      (throw_exception e g []).2.2 = ThrowStep.nullDeref)
    ∧ (∀ g : Globals,
      (throw_reason RETURN_QUIT g []).2.2 = ThrowStep.nullDeref)
    ∧ (∀ g : Globals,
      (throw_reason RETURN_ERROR g []).2.2 = ThrowStep.nullDeref)
    ∧ (∀ (er : Errors) (m : String) (g : Globals),
      (throw_verror er m g []).2.2 = ThrowStep.nullDeref)
    ∧ (∀ (m : String) (g : Globals),
      (throw_vfatal m g []).2.2 = ThrowStep.nullDeref)
    ∧ (∀ (er : Errors) (m : String) (g : Globals),
      (throw_error er m g []).2.2 = ThrowStep.nullDeref) := by
  refine ⟨fun e g => rfl, fun g => rfl, fun g => rfl,
    fun er m g => rfl, fun m g => rfl, fun er m g => rfl⟩

/-- Counterexample for C7: `throw_reason` at `RETURN_QUIT` constructs an
exception whose reason is non-zero yet whose message is absent, refuting
"reason == 0 iff message is absent" for exceptions this core
constructs. -/
theorem c7_counterexample :
    throw_reason_exception RETURN_QUIT
        = some { reason := RETURN_QUIT, error := Errors.NO_ERROR,
                 message := none }
    ∧ ¬(RETURN_QUIT = 0 ↔ (none : Option String) = none) :=
  ⟨by decide, by decide⟩

/-- Claim C7 (amended): the no-exception value has reason 0 and no message,
and the slot a fresh catcher records is exactly that value; in the other
direction, every exception this core constructs with a message has a
non-zero reason — but the converse direction of the claimed iff fails:
`throw_reason` constructs exceptions with non-zero reason and no message
(both for quit and for error reasons), while the formatted throws
(`throw_verror`, `throw_vfatal`, `throw_error`) always attach a message and
a non-zero reason. -/
theorem c7_reason_message_invariant :
    (exception_none.reason = 0 ∧ exception_none.message = none)
    ∧ (∀ (sink mask : Nat) (g : Globals) (stack : List Catcher),
      ((catcher_init sink mask g stack).2.head?.map Catcher.exception)
        = some exception_none)
    ∧ (∀ (r : Int) (e : Exception), throw_reason_exception r = some e →
      e.reason ≠ 0 ∧ e.message = none)
    ∧ (∀ (er : Errors) (m : String),
      (throw_verror_exception er m).reason ≠ 0
        ∧ (throw_verror_exception er m).message = some m)
    ∧ (∀ (m : String),
      (throw_vfatal_exception m).reason ≠ 0
        ∧ (throw_vfatal_exception m).message = some m)
    ∧ (∀ (er : Errors) (m : String),
      (throw_error_exception er m).reason ≠ 0
        ∧ (throw_error_exception er m).message = some m) := by
  refine ⟨⟨rfl, rfl⟩, fun sink mask g stack => rfl, ?_,
    fun er m => ⟨show RETURN_ERROR ≠ 0 by decide, rfl⟩,
    fun m => ⟨show RETURN_QUIT ≠ 0 by decide, rfl⟩,
    fun er m => ⟨show RETURN_ERROR ≠ 0 by decide, rfl⟩⟩
  intro r e h
  unfold throw_reason_exception at h
  split_ifs at h with h1 h2
  · simp only [Option.some.injEq] at h
    subst h1
    rw [← h]
    exact ⟨show RETURN_QUIT ≠ 0 by decide, rfl⟩
  · simp only [Option.some.injEq] at h
    subst h2
    rw [← h]
    exact ⟨show RETURN_ERROR ≠ 0 by decide, rfl⟩

/-- Every run of the shared drive loop ends with the pushed frame popped
exactly once: the outcome is `done` (slot `exception_none` on the normal
path, the thrown exception on the claimed path) or `relayed`, never
`fatal`; in every case the remaining stack is exactly the pre-push stack,
and the globals have the original `uiout` reference and cleanup token
restored by `catcher_pop`. -/
theorem catcher_run_cases (func_uiout mask : Nat)
    (op : Globals → OpResult × Globals) (g : Globals)
    (stack : List Catcher) :
    (∃ v g2, catcher_run func_uiout mask op g stack
        = .done v exception_none g2 stack
        ∧ g2.uiout = g.uiout ∧ g2.cleanup_chain = g.cleanup_chain)
    ∨ (∃ e g2, catcher_run func_uiout mask op g stack = .done 0 e g2 stack
        ∧ g2.uiout = g.uiout ∧ g2.cleanup_chain = g.cleanup_chain)
    ∨ (∃ e g2, catcher_run func_uiout mask op g stack = .relayed e g2 stack
        ∧ g2.uiout = g.uiout ∧ g2.cleanup_chain = g.cleanup_chain) := by
  unfold catcher_run
  simp only [catcher_init, save_cleanups, catcher_state_machine]
  rcases hop : op { g with uiout := func_uiout, cleanup_chain := 0 }
    with ⟨r, g3⟩
  cases r with
  | ret v =>
    exact Or.inl ⟨v, _, rfl, rfl, rfl⟩
  | throw e =>
    simp only [throw_exception, throw_effects, catcher_state_machine]
    by_cases hm : mask &&& RETURN_MASK e.reason ≠ 0
    · rw [if_pos hm]
      exact Or.inr (Or.inl ⟨e, _, rfl, rfl, rfl⟩)
    · rw [if_neg hm]
      exact Or.inr (Or.inr ⟨e, _, rfl, rfl, rfl⟩)

/-- Claim C4: after any of the four catch primitives' involvement ends —
normal completion, a claimed exception, or relaying an unclaimed exception
upward, and also at a failed assertion for `catch_exceptions_with_msg` —
the catcher stack equals its value immediately before the primitive was
invoked: the pushed frame is popped exactly once on every path. -/
theorem c4_catch_restores_stack (sink mask : Nat) (b : Bool)
    (errstring : Option String) (op : Globals → OpResult × Globals)
    (g : Globals) (stack : List Catcher) :
    (catch_exception sink op mask g stack).stackAfter = some stack
    ∧ (catch_exceptions_with_msg sink op b mask g stack).stackAfter
        = some stack
    ∧ (catch_errors op errstring mask g stack).stackAfter = some stack
    ∧ (catch_command_errors op mask g stack).stackAfter = some stack := by
  refine ⟨?_, ?_, ?_, ?_⟩
  · rcases catcher_run_cases sink mask op g stack with
      ⟨v, g2, h, _, _⟩ | ⟨e, g2, h, _, _⟩ | ⟨e, g2, h, _, _⟩ <;>
      simp [catch_exception, h, CatchResult.stackAfter]
  · rcases catcher_run_cases sink mask op g stack with
      ⟨v, g2, h, _, _⟩ | ⟨e, g2, h, _, _⟩ | ⟨e, g2, h, _, _⟩ <;>
      · simp only [catch_exceptions_with_msg, h]
        first
        | rfl
        | (split_ifs <;> rfl)
  · rcases catcher_run_cases g.uiout mask op g stack with
      ⟨v, g2, h, _, _⟩ | ⟨e, g2, h, _, _⟩ | ⟨e, g2, h, _, _⟩ <;>
      · simp only [catch_errors, h]
        first
        | rfl
        | (split_ifs <;> rfl)
  · rcases catcher_run_cases g.uiout mask op g stack with
      ⟨v, g2, h, _, _⟩ | ⟨e, g2, h, _, _⟩ | ⟨e, g2, h, _, _⟩ <;>
      · simp only [catch_command_errors, h]
        first
        | rfl
        | (split_ifs <;> rfl)

/-- Claim C9: for every catch primitive invocation, the process-wide output
sink (`uiout`) and the cleanup-registry token saved at `catcher_init` are
restored to their exact prior values when the frame is popped, on every
exit path — normal completion, claimed exception, relayed exception (taken
at the instant after `catcher_pop`, before the relayed throw re-runs the
global normalization on behalf of the next catcher), and failed
assertion. -/
theorem c9_catch_restores_sink_and_cleanups (sink mask : Nat) (b : Bool)
    (errstring : Option String) (op : Globals → OpResult × Globals)
    (g : Globals) (stack : List Catcher) :
    ((catch_exception sink op mask g stack).globalsAfter).map Globals.uiout
        = some g.uiout
    ∧ ((catch_exception sink op mask g stack).globalsAfter).map
        Globals.cleanup_chain = some g.cleanup_chain
    ∧ ((catch_exceptions_with_msg sink op b mask g stack).globalsAfter).map
        Globals.uiout = some g.uiout
    ∧ ((catch_exceptions_with_msg sink op b mask g stack).globalsAfter).map
        Globals.cleanup_chain = some g.cleanup_chain
    ∧ ((catch_errors op errstring mask g stack).globalsAfter).map
        Globals.uiout = some g.uiout
    ∧ ((catch_errors op errstring mask g stack).globalsAfter).map
        Globals.cleanup_chain = some g.cleanup_chain
    ∧ ((catch_command_errors op mask g stack).globalsAfter).map
        Globals.uiout = some g.uiout
    ∧ ((catch_command_errors op mask g stack).globalsAfter).map
        Globals.cleanup_chain = some g.cleanup_chain := by
  refine ⟨?_, ?_, ?_, ?_, ?_, ?_, ?_, ?_⟩ <;>
    [rcases catcher_run_cases sink mask op g stack with
      ⟨v, g2, h, hu, hc⟩ | ⟨e, g2, h, hu, hc⟩ | ⟨e, g2, h, hu, hc⟩;
     rcases catcher_run_cases sink mask op g stack with
      ⟨v, g2, h, hu, hc⟩ | ⟨e, g2, h, hu, hc⟩ | ⟨e, g2, h, hu, hc⟩;
     rcases catcher_run_cases sink mask op g stack with
      ⟨v, g2, h, hu, hc⟩ | ⟨e, g2, h, hu, hc⟩ | ⟨e, g2, h, hu, hc⟩;
     rcases catcher_run_cases sink mask op g stack with
      ⟨v, g2, h, hu, hc⟩ | ⟨e, g2, h, hu, hc⟩ | ⟨e, g2, h, hu, hc⟩;
     rcases catcher_run_cases g.uiout mask op g stack with
      ⟨v, g2, h, hu, hc⟩ | ⟨e, g2, h, hu, hc⟩ | ⟨e, g2, h, hu, hc⟩;
     rcases catcher_run_cases g.uiout mask op g stack with
      ⟨v, g2, h, hu, hc⟩ | ⟨e, g2, h, hu, hc⟩ | ⟨e, g2, h, hu, hc⟩;
     rcases catcher_run_cases g.uiout mask op g stack with
      ⟨v, g2, h, hu, hc⟩ | ⟨e, g2, h, hu, hc⟩ | ⟨e, g2, h, hu, hc⟩;
     rcases catcher_run_cases g.uiout mask op g stack with
      ⟨v, g2, h, hu, hc⟩ | ⟨e, g2, h, hu, hc⟩ | ⟨e, g2, h, hu, hc⟩] <;>
    simp only [catch_exception, catch_exceptions_with_msg, catch_errors,
      catch_command_errors, h] <;>
    first
    | (split_ifs <;> simp [CatchResult.globalsAfter, hu, hc])
    | simp [CatchResult.globalsAfter, hu, hc]

/-- Claim C5: `catch_exceptions_with_msg` returns the operation's own
value paired with "nothing written through `gdberrmsg`" when the operation
completes normally with a non-negative value (so the `val >= 0` and
`reason <= 0` assertions pass), and returns the raw (negative) exception
reason when the operation throws an exception the mask claims, writing a
copy of the exception's message — or NULL when it has none — through
`gdberrmsg` exactly when the caller supplied that output slot. -/
theorem c5_catch_exceptions_with_msg_contract :
    (∀ (sink mask : Nat) (b : Bool) (g : Globals) (stack : List Catcher)
      (v : Int) (f : Globals → Globals), 0 ≤ v →
      (catch_exceptions_with_msg sink (fun x => (OpResult.ret v, f x)) b
          mask g stack).retValue = some (v, none))
    ∧ (∀ (sink mask : Nat) (b : Bool) (g : Globals) (stack : List Catcher)
      (e : Exception) (f : Globals → Globals),
      e.reason < 0 → mask &&& RETURN_MASK e.reason ≠ 0 →
      (catch_exceptions_with_msg sink (fun x => (OpResult.throw e, f x)) b
          mask g stack).retValue
        = some (e.reason, if b then some e.message else none)) := by
  constructor
  · intro sink mask b g stack v f hv
    simp [catch_exceptions_with_msg, catcher_run, catcher_init,
      save_cleanups, catcher_state_machine, catcher_pop, restore_cleanups,
      exception_none, CatchResult.retValue, hv]
  · intro sink mask b g stack e f hr hm
    simp [catch_exceptions_with_msg, catcher_run, catcher_init,
      save_cleanups, catcher_state_machine, throw_exception, throw_effects,
      catcher_pop, restore_cleanups, CatchResult.retValue, hm, hr, hr.le,
      not_lt_of_lt hr]

/-- Witness for C5: a normal return of 3 yields (3, nothing written);
a claimed generic error with message "bad value" yields the error reason
and the message copy written through the supplied slot. -/
theorem c5_witness :
    (catch_exceptions_with_msg 1 (fun x => (OpResult.ret 3, x)) true
        RETURN_MASK_ALL g0 []).retValue = some (3, none)
    ∧ (catch_exceptions_with_msg 1
        (fun x =>
          (OpResult.throw ⟨RETURN_ERROR, .GENERIC_ERROR, some "bad value"⟩,
           x))
        true RETURN_MASK_ALL g0 []).retValue
      = some (RETURN_ERROR, some (some "bad value")) :=
  ⟨c5_catch_exceptions_with_msg_contract.1 1 RETURN_MASK_ALL true g0 [] 3
      (fun x => x) (by decide),
   c5_catch_exceptions_with_msg_contract.2 1 RETURN_MASK_ALL true g0 []
      ⟨RETURN_ERROR, .GENERIC_ERROR, some "bad value"⟩ (fun x => x)
      (by decide) (by decide)⟩

/-- Claim C6: `catch_errors` yields a falsy (zero) result whenever the
protected operation ends via a claimed exception — the stored value is
still its initial 0, untouched by the aborted run — and otherwise returns
the operation's own value, whose truthiness (non-zero test) is the
operation's value's truthiness. -/
theorem c6_catch_errors_contract :
    (∀ (errstring : Option String) (mask : Nat) (g : Globals)
      (stack : List Catcher) (e : Exception) (f : Globals → Globals),
      e.reason < 0 → mask &&& RETURN_MASK e.reason ≠ 0 →
      ((catch_errors (fun x => (OpResult.throw e, f x)) errstring mask g
          stack).retValue).map (fun w => decide (w ≠ 0)) = some false)
    ∧ (∀ (errstring : Option String) (mask : Nat) (g : Globals)
      (stack : List Catcher) (v : Int) (f : Globals → Globals),
      (catch_errors (fun x => (OpResult.ret v, f x)) errstring mask g
          stack).retValue = some v
      ∧ ((catch_errors (fun x => (OpResult.ret v, f x)) errstring mask g
          stack).retValue).map (fun w => decide (w ≠ 0))
        = some (decide (v ≠ 0))) := by
  constructor
  · intro errstring mask g stack e f hr hm
    simp [catch_errors, catcher_run, catcher_init, save_cleanups,
      catcher_state_machine, throw_exception, throw_effects, catcher_pop,
      restore_cleanups, CatchResult.retValue, hm, hr.ne]
  · intro errstring mask g stack v f
    constructor <;>
      simp [catch_errors, catcher_run, catcher_init, save_cleanups,
        catcher_state_machine, catcher_pop, restore_cleanups,
        exception_none, CatchResult.retValue]

/-- Witness for C6: a protected operation returning 2 yields a truthy
result, returning 0 yields a falsy result, and a thrown error yields a
falsy result. -/
theorem c6_witness :
    ((catch_errors
        (fun x => (OpResult.throw ⟨RETURN_ERROR, .GENERIC_ERROR, some "e"⟩,
          x))
        none RETURN_MASK_ALL g0 []).retValue).map (fun w => decide (w ≠ 0))
      = some false
    ∧ (catch_errors (fun x => (OpResult.ret 2, x)) none RETURN_MASK_ALL g0
        []).retValue = some 2 :=
  ⟨c6_catch_errors_contract.1 none RETURN_MASK_ALL g0 []
      ⟨RETURN_ERROR, .GENERIC_ERROR, some "e"⟩ (fun x => x) (by decide)
      (by decide),
   (c6_catch_errors_contract.2 none RETURN_MASK_ALL g0 [] 2
      (fun x => x)).1⟩

/-- Claim C10: `catch_exceptions` returns exactly the same value and has
exactly the same effects as `catch_exceptions_with_msg` invoked with the
same arguments and a NULL `gdberrmsg` slot — in the source it is literally
that delegation, so the results coincide definitionally for every sink,
operation, mask, and starting state. -/
theorem c10_catch_exceptions_delegates (sink mask : Nat)
    (op : Globals → OpResult × Globals) (g : Globals)
    (stack : List Catcher) :
    catch_exceptions sink op mask g stack
      = catch_exceptions_with_msg sink op false mask g stack := rfl

/-- Witness for C7 (amended), instantiating the `throw_reason` clause at
`RETURN_QUIT`. -/
theorem c7_witness :
    (⟨RETURN_QUIT, Errors.NO_ERROR, none⟩ : Exception).reason ≠ 0
      ∧ (⟨RETURN_QUIT, Errors.NO_ERROR, none⟩ : Exception).message = none :=
  c7_reason_message_invariant.2.2.1 RETURN_QUIT
    ⟨RETURN_QUIT, Errors.NO_ERROR, none⟩ (by decide)

end Gdb
